import Mathlib

/-
Verification of the SonicSpeed media-enhancer core against its
natural-language specification.

The development shallowly embeds the page-context engine
(src/sonicspeed-enhancer/content.js) and the control-surface logic
(src/sonicspeed-enhancer/popup.js).  JavaScript numbers are modelled as
exact rationals together with the three non-finite values (NaN and the two
infinities); JavaScript values that the code coerces are modelled by a
small inductive type carrying exactly the information the coercions
inspect.  Playback rates, which the speed/pitch controller derives with
`Math.pow`, are modelled as real numbers.
-/

namespace SonicSpeed

/-! ## JavaScript value model -/

/-- A JavaScript number: a finite value (exact rational) or one of the
non-finite values `NaN`, `+Infinity`, `-Infinity`. -/
inductive JsNum where
  | fin (q : ℚ)
  | nan
  | posInf
  | negInf
deriving DecidableEq, Repr

/-- `Number.isFinite`. -/
def JsNum.isFinite : JsNum → Bool
  | .fin _ => true
  | _ => false

/-- A JavaScript value as far as the settings codec inspects it.  Strings
and objects carry the result of their `Number(...)` coercion; strings also
record emptiness, which is what their `Boolean(...)` coercion looks at. -/
inductive JsVal where
  | undef
  | nullv
  | boolv (b : Bool)
  | numv (n : JsNum)
  | strv (isEmpty : Bool) (toNum : JsNum)
  | objv (toNum : JsNum)
deriving DecidableEq, Repr

/-- The `Number(x)` coercion. -/
def toNumber : JsVal → JsNum
  | .undef => .nan
  | .nullv => .fin 0
  | .boolv b => .fin (if b then 1 else 0)
  | .numv n => n
  | .strv _ n => n
  | .objv n => n

/-- The `Boolean(x)` coercion. -/
def toBoolean : JsVal → Bool
  | .undef => false
  | .nullv => false
  | .boolv b => b
  | .numv (.fin q) => decide (q ≠ 0)
  | .numv .nan => false
  | .numv .posInf => true
  | .numv .negInf => true
  | .strv isEmpty _ => !isEmpty
  | .objv _ => true

/-- The nullish-coalescing operator `v ?? d`. -/
def coalesce (v d : JsVal) : JsVal :=
  match v with
  | .undef => d
  | .nullv => d
  | x => x

/-! ## SettingsCodec (content.js lines 3-27, popup.js lines 13-16, 197-206) -/

/-- `Math.max(a, b)` on finite numbers. -/
def jsMax (a b : ℚ) : ℚ := if a ≤ b then b else a

/-- `Math.min(a, b)` on finite numbers. -/
def jsMin (a b : ℚ) : ℚ := if a ≤ b then a else b

/-- content.js / popup.js `clampNumber(value, min, max)`:
`if (!Number.isFinite(value)) return min; return Math.min(max, Math.max(min, value))`. -/
def clampNumber (value : JsNum) (lo hi : ℚ) : ℚ :=
  match value with
  | .fin q => jsMin hi (jsMax lo q)
  | _ => lo

/-- A raw settings record as read from storage or a message: each property
is an arbitrary JavaScript value (`undef` models an absent property). -/
structure RawSettings where
  volumeBoost : JsVal
  speed : JsVal
  nightMode : JsVal
  pitchSemitones : JsVal
deriving DecidableEq, Repr

/-- The raw object `\x7b\x7d` (all properties absent). -/
def emptyRaw : RawSettings := ⟨.undef, .undef, .undef, .undef⟩

/-- A sanitized settings record. -/
@[ext]
structure Settings where
  volumeBoost : ℚ
  speed : ℚ
  nightMode : Bool
  pitchSemitones : ℚ
deriving DecidableEq, Repr

/-- content.js `DEFAULTS`. -/
def DEFAULTS : Settings := ⟨1, 1, false, 0⟩

/-- content.js `sanitizeSettings(raw, isPro)`.  A non-object `raw` is
modelled as `none` (the code substitutes `\x7b\x7d`). -/
def sanitizeSettings (raw : Option RawSettings) (isPro : Bool) : Settings :=
  let obj := raw.getD emptyRaw
  let pro := isPro
  let maxBoost : ℚ := if pro then 6 else 3
  { volumeBoost := clampNumber (toNumber (coalesce obj.volumeBoost (.numv (.fin DEFAULTS.volumeBoost)))) 1 maxBoost
    speed := clampNumber (toNumber (coalesce obj.speed (.numv (.fin DEFAULTS.speed)))) (1/10) 16
    nightMode := if pro then toBoolean (coalesce obj.nightMode (.boolv DEFAULTS.nightMode)) else false
    pitchSemitones :=
      if pro then clampNumber (toNumber (coalesce obj.pitchSemitones (.numv (.fin DEFAULTS.pitchSemitones)))) (-12) 12
      else 0 }

/-- popup.js `sanitizeSettingsForPlan(rawSettings, isPro)`.  Identical
clamping, except that a non-object input falls back to the `DEFAULTS`
object rather than `\x7b\x7d`. -/
def defaultsRaw : RawSettings :=
  ⟨.numv (.fin 1), .numv (.fin 1), .boolv false, .numv (.fin 0)⟩

def sanitizeSettingsForPlan (raw : Option RawSettings) (isPro : Bool) : Settings :=
  let s := raw.getD defaultsRaw
  let pro := isPro
  { volumeBoost := clampNumber (toNumber (coalesce s.volumeBoost (.numv (.fin 1)))) 1 (if pro then 6 else 3)
    speed := clampNumber (toNumber (coalesce s.speed (.numv (.fin 1)))) (1/10) 16
    nightMode := if pro then toBoolean (coalesce s.nightMode (.boolv false)) else false
    pitchSemitones :=
      if pro then clampNumber (toNumber (coalesce s.pitchSemitones (.numv (.fin 0)))) (-12) 12
      else 0 }

/-- Reading a previously stored sanitized record back from the store: each
field comes back as the plain JavaScript value that was written. -/
def settingsToRaw (s : Settings) : RawSettings :=
  ⟨.numv (.fin s.volumeBoost), .numv (.fin s.speed), .boolv s.nightMode, .numv (.fin s.pitchSemitones)⟩

/-! ## EntitlementResolver (content.js lines 37-71, 288-302) -/

/-- content.js `TRIAL_DURATION_MS = 15 * 60 * 1000`. -/
def TRIAL_DURATION_MS : ℚ := 15 * 60 * 1000

/-- content.js `getTrialRemainingMs(startTime)`; `now` stands for
`Date.now()`.  `startTime` is a number or `null`; `!startTime` is true for
`null` and `0`. -/
def getTrialRemainingMs (startTime : Option ℚ) (now : ℚ) : ℚ :=
  match startTime with
  | none => 0
  | some t => if t = 0 then 0 else jsMax 0 (TRIAL_DURATION_MS - (now - t))

/-- content.js `isTrialActive(startTime)`. -/
def isTrialActive (startTime : Option ℚ) (now : ℚ) : Bool :=
  decide (getTrialRemainingMs startTime now > 0)

/-- content.js `loadTrialStartTime` validation of the stored value:
`typeof t === "number" && t > 0 ? t : null`.  Stored timestamps are finite
numbers; only the finite case is modelled. -/
def loadTrialStartTime (v : JsVal) : Option ℚ :=
  match v with
  | .numv (.fin t) => if 0 < t then some t else none
  | _ => none

/-- content.js `getEffectiveIsPro()` after its two storage reads:
`isPro || isTrialActive(trialStart)`. -/
def getEffectiveIsPro (isPro : Bool) (trialStart : Option ℚ) (now : ℚ) : Bool :=
  isPro || isTrialActive trialStart now

/-- The two entitlement keys of `browser.storage.local`. -/
structure StorageLocal where
  isPro : JsVal
  trialStartTime : JsVal
deriving DecidableEq, Repr

/-- The page context's module-level entitlement variables. -/
structure LocalEntitlement where
  currentIsPro : Bool
  currentTrialStartTime : Option ℚ
deriving DecidableEq, Repr

/-- content.js `refreshEffectivePro()` (lines 288-302).  It reads the two
keys, validates the trial start, drops an inactive trial from the local
variable, and recomputes `currentIsPro`.  The function performs no storage
write, so the store component of the result is the input store. -/
def refreshEffectivePro (stored : StorageLocal) (now : ℚ) : LocalEntitlement × StorageLocal :=
  let isPro0 := toBoolean (coalesce stored.isPro (.boolv false))
  let t0 := loadTrialStartTime stored.trialStartTime
  let t1 := match t0 with
    | some t => if isTrialActive (some t) now then some t else none
    | none => none
  ({ currentIsPro := isPro0 || isTrialActive t1 now, currentTrialStartTime := t1 }, stored)

/-! ## License activation (popup.js lines 10, 26-37, 82-84, 441-460) -/

/-- popup.js `LICENSE_ACCEPTED_SANITIZED`. -/
def LICENSE_ACCEPTED_SANITIZED : String := "OFFLINEBETA2026"

/-- The character class `[a-zA-Z0-9]`. -/
def isLicenseChar (c : Char) : Bool := c.isAlpha || c.isDigit

/-- popup.js `sanitizeLicenseKeyInput(raw)`:
`String(raw ?? "").replace(/[^a-zA-Z0-9]/g, "").toUpperCase()`. -/
def sanitizeLicenseKeyInput (raw : String) : String :=
  (raw.toList.filter isLicenseChar).map Char.toUpper |>.asString

/-- popup.js `isLicenseKeyValidFormat(sanitized)`: the regular expression
`/^[a-zA-Z0-9]+$/` accepts exactly the non-empty all-alphanumeric strings. -/
def isLicenseKeyValidFormat (s : String) : Bool :=
  decide (s.length > 0) && s.toList.all isLicenseChar

/-- Outcome of one click of the activate button. -/
structure ActivationResult where
  isProStored : Bool
  accepted : Bool
  wrote : Bool
deriving DecidableEq, Repr

/-- popup.js activate click handler (lines 441-460): sanitize the key;
reject early (no write) when the format check fails; otherwise persist
`sanitized === LICENSE_ACCEPTED_SANITIZED` via `saveIsPro`. -/
def activateClick (raw : String) (storedIsPro : Bool) : ActivationResult :=
  let sanitized := sanitizeLicenseKeyInput raw
  if !isLicenseKeyValidFormat sanitized then
    { isProStored := storedIsPro, accepted := false, wrote := false }
  else
    let ok := sanitized = LICENSE_ACCEPTED_SANITIZED
    { isProStored := ok, accepted := ok, wrote := true }

/-! ## AudioRoutingEngine (content.js lines 85-245)

Media elements are identified by natural numbers (their index in the
page's video list).  The two success/failure sources that the code cannot
decide by itself — whether `window.AudioContext` exists and constructs,
and whether `createMediaElementSource` plus graph wiring succeed — are
oracle parameters (`ctxAvailable`, `sourceOk`).  `srcCount` counts, per
element, how many media-element source nodes have ever been created: the
underlying audio system makes creating a second one for the same element
an unrecoverable error. -/

/-- The per-element pipeline: the gain values and compressor preset of the
node graph built in `ensurePipelineForVideo`. -/
structure Pipe where
  dryGain : ℚ
  wetGain : ℚ
  wetPreGain : ℚ
  compSelGain : ℚ
  bypassSelGain : ℚ
  boostGain : ℚ
  compNightPreset : Bool
  lastVizLevels : List ℚ
deriving DecidableEq, Repr

/-- The pipeline as constructed (content.js lines 152-189): dry path at
unity, wet path silenced, compressor bypassed, gentle compressor preset. -/
def initialPipe : Pipe :=
  { dryGain := 1, wetGain := 0, wetPreGain := 1, compSelGain := 0, bypassSelGain := 1
    boostGain := 1, compNightPreset := false, lastVizLevels := List.replicate 24 0 }

/-- content.js `audioEngine` (`ctx`, `pipelines` WeakMap, `blockedVideos`
WeakSet) plus the per-element source-node counter. -/
structure AudioEngine where
  ctx : Bool
  pipelines : ℕ → Option Pipe
  blocked : ℕ → Bool
  srcCount : ℕ → ℕ

/-- A page with no engine activity yet. -/
def emptyEngine : AudioEngine :=
  { ctx := false, pipelines := fun _ => none, blocked := fun _ => false, srcCount := fun _ => 0 }

/-- content.js `ensureAudioContext()`: reuse the shared context, else try
to create one (`ctxAvailable` = the constructor exists and succeeds);
failure leaves `ctx` null. -/
def ensureAudioContext (st : AudioEngine) (ctxAvailable : Bool) : Bool × AudioEngine :=
  if st.ctx then (true, st)
  else if ctxAvailable then (true, { st with ctx := true })
  else (false, st)

/-- content.js `ensurePipelineForVideo(video)` (lines 122-213): a blocked
element is refused outright; an existing pipeline is returned as is;
otherwise the context is ensured and the source node plus graph are
created (`sourceOk` = the `try` block does not throw); a construction
failure adds the element to `blockedVideos`. -/
def ensurePipelineForVideo (st : AudioEngine) (v : ℕ) (ctxAvailable sourceOk : Bool) :
    Option Pipe × AudioEngine :=
  if st.blocked v then (none, st)
  else
    match st.pipelines v with
    | some p => (some p, st)
    | none =>
      match ensureAudioContext st ctxAvailable with
      | (false, st1) => (none, st1)
      | (true, st1) =>
        if sourceOk then
          (some initialPipe,
            { st1 with
              pipelines := fun w => if w = v then some initialPipe else st1.pipelines w
              srcCount := fun w => if w = v then st1.srcCount w + 1 else st1.srcCount w })
        else
          (none, { st1 with blocked := fun w => if w = v then true else st1.blocked w })

/-- content.js `applyAudioToVideo(video, settings)` (lines 215-245). -/
def applyAudioToVideo (st : AudioEngine) (v : ℕ) (s : Settings) (ctxAvailable sourceOk : Bool) :
    AudioEngine :=
  if s.volumeBoost > 1 ∨ s.nightMode = true then
    match ensurePipelineForVideo st v ctxAvailable sourceOk with
    | (none, st1) => st1
    | (some p, st1) =>
      let p1 :=
        if s.nightMode then
          { p with dryGain := 0, wetGain := 1, boostGain := s.volumeBoost
                   compNightPreset := true, compSelGain := 1, bypassSelGain := 0 }
        else
          { p with dryGain := 0, wetGain := 1, boostGain := s.volumeBoost
                   compNightPreset := false, compSelGain := 0, bypassSelGain := 1 }
      { st1 with pipelines := fun w => if w = v then some p1 else st1.pipelines w }
  else
    match st.pipelines v with
    | some p =>
      { st with pipelines := fun w =>
          if w = v then
            some { p with dryGain := 1, wetGain := 0, boostGain := 1
                          compSelGain := 0, bypassSelGain := 1 }
          else st.pipelines w }
    | none => st

/-! ## SpeedPitchController (content.js lines 247-282) -/

/-- A media element, carrying the properties the handlers read (`paused`,
`ended`, the byte frequency data its analyser would report) and the
properties the controller writes (`playbackRate`, `preservesPitch`). -/
structure Video where
  paused : Bool
  ended : Bool
  freq : List ℕ
  playbackRate : ℝ
  preservesPitch : Bool

/-- content.js `applySpeedAndPitchToVideo(video, speed, pitchSemitones)`
(lines 267-282): clamp the semitones, then either preserve pitch at the
given rate (`semis === 0`) or disable pitch preservation and scale the
rate by `Math.pow(2, semis / 12)`. -/
noncomputable def applySpeedAndPitchToVideo (video : Video) (speed : ℚ) (pitchSemitones : JsNum) :
    Video :=
  let semis := clampNumber pitchSemitones (-12) 12
  if semis = 0 then
    { video with preservesPitch := true, playbackRate := (speed : ℝ) }
  else
    { video with preservesPitch := false
                 playbackRate := (speed : ℝ) * (2 : ℝ) ^ ((semis : ℝ) / 12) }

/-! ## Spectrum sampling (content.js lines 353-382) -/

/-- The inner loop of `computeVizLevels` for bucket `i`: average the up to
`step` frequency bytes of the bucket, stopping at the end of the array
(`count ? sum / count : 0`). -/
def vizBucket (freq : List ℕ) (step i : ℕ) : ℚ :=
  let js := (List.range step).filter (fun j => i * step + j < freq.length)
  let sum : ℕ := (js.map (fun j => freq.getD (i * step + j) 0)).sum
  let count := js.length
  if count = 0 then 0 else (sum : ℚ) / count

/-- content.js `computeVizLevels(analyser, barCount)`: downsample the byte
frequency data (`freq`, each entry a byte of the analyser's
`frequencyBinCount`-sized array) into `n` contiguous buckets of `step =
max(1, floor(length / n))` averaged entries each, then normalize each
average by 255 and clamp to `[0, 1]`. -/
def computeVizLevels (freq : List ℕ) (barCount : ℕ) : List ℚ :=
  let n := max 8 (min 64 barCount)
  let step := max 1 (freq.length / n)
  (List.range n).map (fun i => clampNumber (.fin (vizBucket freq step i / 255)) 0 1)

/-! ## Page context and SyncCoordinator endpoints (content.js lines 284-313, 375-382, 418-475) -/

/-- The state of one page context: the audio engine, the module-level
entitlement and settings variables, and the page's video elements (the
element id used by the engine is the index in this list). -/
structure PageState where
  engine : AudioEngine
  currentIsPro : Bool
  currentSettings : Settings
  videos : List Video

/-- Index of the first video with `!v.paused && !v.ended`, if any
(the `vids.find(...)` of `getPrimaryPipeline`). -/
def findPlayingIdx (vids : List Video) : Option ℕ :=
  (List.range vids.length).find? (fun i =>
    match vids.get? i with
    | some v => !v.paused && !v.ended
    | none => false)

/-- content.js `getPrimaryPipeline()` (lines 375-382): prefer a playing
video, else the first video, else null; pair it with its (possibly
absent) pipeline. -/
def getPrimaryPipeline (st : PageState) : Option (ℕ × Option Pipe) :=
  match findPlayingIdx st.videos with
  | some i => some (i, st.engine.pipelines i)
  | none =>
    match st.videos with
    | [] => none
    | _ => some (0, st.engine.pipelines 0)

/-- content.js `applySettingsToAllVideos(settings)` (lines 304-313):
sanitize against the current entitlement, store as `currentSettings`, and
for every video apply speed/pitch and then audio routing. -/
noncomputable def applySettingsToAllVideos (st : PageState) (settings : Option RawSettings)
    (ctxAvailable sourceOk : Bool) : PageState :=
  let next := sanitizeSettings settings st.currentIsPro
  let vids := st.videos.map (fun v => applySpeedAndPitchToVideo v next.speed (.fin next.pitchSemitones))
  let eng := (List.range st.videos.length).foldl
    (fun e i => applyAudioToVideo e i next ctxAvailable sourceOk) st.engine
  { st with currentSettings := next, videos := vids, engine := eng }

/-- A runtime message, as dispatched on `m.type`.  `applyMsg` carries
`m.settings` (already reduced to object-or-not). -/
inductive Msg where
  | ping
  | applyMsg (settings : Option RawSettings)
  | getViz
  | resumeCtx
  | other
deriving DecidableEq, Repr

/-- The literal response objects the listener returns.  `vizDenied` is
`\x7bok:false, reason:"not_pro"\x7d`; `vizFrame a lv` is
`\x7bok:true, active:a, levels:lv\x7d`; `okResp b` is `\x7bok:b\x7d`;
`pingResp h` is `\x7bhasVideo:h\x7d`; `noResponse` is `undefined`. -/
inductive Response where
  | pingResp (hasVideo : Bool)
  | okResp (ok : Bool)
  | vizDenied
  | vizFrame (active : Bool) (levels : List ℚ)
  | noResponse
deriving DecidableEq, Repr

/-- The `ok` property of a response object, when it has one. -/
def Response.okField : Response → Option Bool
  | .pingResp _ => none
  | .okResp b => some b
  | .vizDenied => some false
  | .vizFrame _ _ => some true
  | .noResponse => none

/-- content.js `browser.runtime.onMessage` listener (lines 418-475).
`fail = true` means the handler's `try` body threw, so the `catch` branch
produces the response; the oracles `ctxAvailable`/`sourceOk` feed the
engine as above. -/
noncomputable def handleMessage (st : PageState) (m : Msg) (fail ctxAvailable sourceOk : Bool) :
    Response × PageState :=
  match m with
  | .ping =>
    if fail then (.pingResp false, st)
    else (.pingResp (!st.videos.isEmpty), st)
  | .applyMsg raw =>
    if fail then (.okResp false, st)
    else
      let settings := sanitizeSettings raw st.currentIsPro
      (.okResp true, applySettingsToAllVideos st (some (settingsToRaw settings)) ctxAvailable sourceOk)
  | .getViz =>
    if fail then (.vizFrame false [], st)
    else if !st.currentIsPro then (.vizDenied, st)
    else
      match getPrimaryPipeline st with
      | none => (.vizFrame false [], st)
      | some (i, pipeOpt) =>
        let isPlaying :=
          match st.videos.get? i with
          | some v => !v.paused && !v.ended
          | none => false
        let freq := match st.videos.get? i with
          | some v => v.freq
          | none => []
        match pipeOpt with
        | some pipe =>
          let levels := computeVizLevels freq 24
          (.vizFrame isPlaying levels,
            { st with engine := { st.engine with
                pipelines := fun w =>
                  if w = i then some { pipe with lastVizLevels := levels }
                  else st.engine.pipelines w } })
        | none =>
          match ensurePipelineForVideo st.engine i ctxAvailable sourceOk with
          | (none, eng1) => (.vizFrame false [], { st with engine := eng1 })
          | (some pipe, eng1) =>
            let levels := computeVizLevels freq 24
            (.vizFrame isPlaying levels,
              { st with engine := { eng1 with
                  pipelines := fun w =>
                    if w = i then some { pipe with lastVizLevels := levels }
                    else eng1.pipelines w } })
  | .resumeCtx =>
    if fail then (.okResp false, st)
    else
      match ensureAudioContext st.engine ctxAvailable with
      | (false, eng) => (.okResp false, { st with engine := eng })
      | (true, eng) => (.okResp true, { st with engine := eng })
  | .other => (.noResponse, st)

/-! ## Helper lemmas -/

theorem clampNumber_bounds (n : JsNum) (lo hi : ℚ) (h : lo ≤ hi) :
    lo ≤ clampNumber n lo hi ∧ clampNumber n lo hi ≤ hi := by
  cases n with
  | fin q =>
    simp only [clampNumber, jsMin, jsMax]
    split_ifs <;> constructor <;> linarith
  | nan => exact ⟨le_rfl, h⟩
  | posInf => exact ⟨le_rfl, h⟩
  | negInf => exact ⟨le_rfl, h⟩

theorem clampNumber_fixed (q lo hi : ℚ) (h1 : lo ≤ q) (h2 : q ≤ hi) :
    clampNumber (.fin q) lo hi = q := by
  simp only [clampNumber, jsMin, jsMax]
  split_ifs <;> linarith

theorem clampNumber_nonfinite (n : JsNum) (lo hi : ℚ) (h : n.isFinite = false) :
    clampNumber n lo hi = lo := by
  cases n <;> simp_all [JsNum.isFinite, clampNumber]

theorem sanitizeSettings_bounds (raw : Option RawSettings) (pro : Bool) :
    1 ≤ (sanitizeSettings raw pro).volumeBoost ∧
    (sanitizeSettings raw pro).volumeBoost ≤ (if pro then 6 else 3) ∧
    1/10 ≤ (sanitizeSettings raw pro).speed ∧ (sanitizeSettings raw pro).speed ≤ 16 ∧
    -12 ≤ (sanitizeSettings raw pro).pitchSemitones ∧
    (sanitizeSettings raw pro).pitchSemitones ≤ 12 ∧
    (pro = false → (sanitizeSettings raw pro).nightMode = false ∧
      (sanitizeSettings raw pro).pitchSemitones = 0) := by
  have hb : (1 : ℚ) ≤ (if pro then 6 else 3) := by cases pro <;> norm_num
  have h1 := clampNumber_bounds (toNumber (coalesce (raw.getD emptyRaw).volumeBoost
    (.numv (.fin DEFAULTS.volumeBoost)))) 1 (if pro then 6 else 3) hb
  have h2 := clampNumber_bounds (toNumber (coalesce (raw.getD emptyRaw).speed
    (.numv (.fin DEFAULTS.speed)))) (1/10) 16 (by norm_num)
  have h3 := clampNumber_bounds (toNumber (coalesce (raw.getD emptyRaw).pitchSemitones
    (.numv (.fin DEFAULTS.pitchSemitones)))) (-12) 12 (by norm_num)
  cases pro with
  | false =>
    refine ⟨h1.1, h1.2, h2.1, h2.2, by norm_num [sanitizeSettings], by norm_num [sanitizeSettings],
      fun _ => ⟨rfl, rfl⟩⟩
  | true =>
    exact ⟨h1.1, h1.2, h2.1, h2.2, h3.1, h3.2, fun h => by simp at h⟩

theorem sanitizeSettingsForPlan_eq (raw : Option RawSettings) (pro : Bool) :
    sanitizeSettingsForPlan raw pro = sanitizeSettings raw pro := by
  cases raw with
  | some obj => rfl
  | none => rfl

theorem sanitize_of_sanitized (s : Settings) (pro : Bool)
    (hvb1 : 1 ≤ s.volumeBoost) (hvb2 : s.volumeBoost ≤ (if pro then 6 else 3))
    (hsp1 : 1/10 ≤ s.speed) (hsp2 : s.speed ≤ 16)
    (hpi1 : -12 ≤ s.pitchSemitones) (hpi2 : s.pitchSemitones ≤ 12)
    (hfree : pro = false → s.nightMode = false ∧ s.pitchSemitones = 0) :
    sanitizeSettings (some (settingsToRaw s)) pro = s := by
  cases pro with
  | false =>
    obtain ⟨hn, hp⟩ := hfree rfl
    have h1 : (sanitizeSettings (some (settingsToRaw s)) false).volumeBoost = s.volumeBoost := by
      show clampNumber (.fin s.volumeBoost) 1 3 = s.volumeBoost
      exact clampNumber_fixed _ _ _ hvb1 (by simpa using hvb2)
    have h2 : (sanitizeSettings (some (settingsToRaw s)) false).speed = s.speed := by
      show clampNumber (.fin s.speed) (1/10) 16 = s.speed
      exact clampNumber_fixed _ _ _ hsp1 hsp2
    have h3 : (sanitizeSettings (some (settingsToRaw s)) false).nightMode = s.nightMode := by
      show false = s.nightMode
      exact hn.symm
    have h4 : (sanitizeSettings (some (settingsToRaw s)) false).pitchSemitones = s.pitchSemitones := by
      show (0 : ℚ) = s.pitchSemitones
      exact hp.symm
    exact Settings.ext h1 h2 h3 h4
  | true =>
    have h1 : (sanitizeSettings (some (settingsToRaw s)) true).volumeBoost = s.volumeBoost := by
      show clampNumber (.fin s.volumeBoost) 1 6 = s.volumeBoost
      exact clampNumber_fixed _ _ _ hvb1 (by simpa using hvb2)
    have h2 : (sanitizeSettings (some (settingsToRaw s)) true).speed = s.speed := by
      show clampNumber (.fin s.speed) (1/10) 16 = s.speed
      exact clampNumber_fixed _ _ _ hsp1 hsp2
    have h3 : (sanitizeSettings (some (settingsToRaw s)) true).nightMode = s.nightMode := rfl
    have h4 : (sanitizeSettings (some (settingsToRaw s)) true).pitchSemitones = s.pitchSemitones := by
      show clampNumber (.fin s.pitchSemitones) (-12) 12 = s.pitchSemitones
      exact clampNumber_fixed _ _ _ hpi1 hpi2
    exact Settings.ext h1 h2 h3 h4

/-! ## Claims C4 and C5 -/

/-- C4: for arbitrary raw input (non-objects, missing fields, non-numeric
or non-finite values) and both plan tiers, `sanitizeSettings` coerces each
field, substitutes the documented default for missing input and the
field's minimum for non-finite numbers, and returns `volumeBoost` in
`[1, 6]` (at most `3` when `pro` is false), `speed` in `[0.1, 16]`,
`pitchSemitones` in `[-12, 12]`; for `pro = false` it always yields
`nightMode = false` and `pitchSemitones = 0` regardless of input. -/
theorem C4_sanitize_clamps (raw : Option RawSettings) (pro : Bool) :
    (1 ≤ (sanitizeSettings raw pro).volumeBoost ∧
      (sanitizeSettings raw pro).volumeBoost ≤ (if pro then 6 else 3) ∧
      (sanitizeSettings raw pro).volumeBoost ≤ 6) ∧
    (1/10 ≤ (sanitizeSettings raw pro).speed ∧ (sanitizeSettings raw pro).speed ≤ 16) ∧
    (-12 ≤ (sanitizeSettings raw pro).pitchSemitones ∧
      (sanitizeSettings raw pro).pitchSemitones ≤ 12) ∧
    (pro = false → (sanitizeSettings raw pro).nightMode = false ∧
      (sanitizeSettings raw pro).pitchSemitones = 0) ∧
    (sanitizeSettings none pro = DEFAULTS) ∧
    (∀ obj : RawSettings, raw = some obj →
      ((toNumber (coalesce obj.volumeBoost (.numv (.fin 1)))).isFinite = false →
        (sanitizeSettings raw pro).volumeBoost = 1) ∧
      ((toNumber (coalesce obj.speed (.numv (.fin 1)))).isFinite = false →
        (sanitizeSettings raw pro).speed = 1/10) ∧
      (pro = true → (toNumber (coalesce obj.pitchSemitones (.numv (.fin 0)))).isFinite = false →
        (sanitizeSettings raw pro).pitchSemitones = -12) ∧
      (obj.volumeBoost = .undef → (sanitizeSettings raw pro).volumeBoost = 1) ∧
      (obj.speed = .undef → (sanitizeSettings raw pro).speed = 1) ∧
      (obj.nightMode = .undef → (sanitizeSettings raw pro).nightMode = false) ∧
      (obj.pitchSemitones = .undef → (sanitizeSettings raw pro).pitchSemitones = 0)) := by
  obtain ⟨b1, b2, b3, b4, b5, b6, b7⟩ := sanitizeSettings_bounds raw pro
  refine ⟨⟨b1, b2, le_trans b2 (by cases pro <;> norm_num)⟩, ⟨b3, b4⟩, ⟨b5, b6⟩, b7,
    by cases pro <;> with_unfolding_all decide, ?_⟩
  rintro obj rfl
  refine ⟨?_, ?_, ?_, ?_, ?_, ?_, ?_⟩
  · intro h
    have : (1 : ℚ) ≤ (if pro then 6 else 3) := by cases pro <;> norm_num
    simpa [sanitizeSettings] using clampNumber_nonfinite _ 1 (if pro then 6 else 3) h
  · intro h
    simpa [sanitizeSettings] using clampNumber_nonfinite _ (1/10) 16 h
  · rintro rfl h
    simpa [sanitizeSettings] using clampNumber_nonfinite _ (-12) 12 h
  · intro h
    cases pro <;>
      norm_num [sanitizeSettings, h, coalesce, toNumber, DEFAULTS, clampNumber, jsMin, jsMax]
  · intro h
    norm_num [sanitizeSettings, h, coalesce, toNumber, DEFAULTS, clampNumber, jsMin, jsMax]
  · intro h
    cases pro <;> simp [sanitizeSettings, h, coalesce, toBoolean, DEFAULTS]
  · intro h
    cases pro <;>
      norm_num [sanitizeSettings, h, coalesce, toNumber, DEFAULTS, clampNumber, jsMin, jsMax]

/-- Witness for C4 at a concrete adversarial input: `volumeBoost` is a
string coercing to `NaN`, `speed` is absent, `nightMode` is a truthy
string, `pitchSemitones` is `100`, on the free plan. -/
theorem C4_witness :
    (1 ≤ (sanitizeSettings (some ⟨.strv false .nan, .undef, .strv false (.fin 0), .numv (.fin 100)⟩) false).volumeBoost ∧
      (sanitizeSettings (some ⟨.strv false .nan, .undef, .strv false (.fin 0), .numv (.fin 100)⟩) false).volumeBoost ≤ (if false then 6 else 3) ∧
      (sanitizeSettings (some ⟨.strv false .nan, .undef, .strv false (.fin 0), .numv (.fin 100)⟩) false).volumeBoost ≤ 6) ∧
    (1/10 ≤ (sanitizeSettings (some ⟨.strv false .nan, .undef, .strv false (.fin 0), .numv (.fin 100)⟩) false).speed ∧
      (sanitizeSettings (some ⟨.strv false .nan, .undef, .strv false (.fin 0), .numv (.fin 100)⟩) false).speed ≤ 16) ∧
    (-12 ≤ (sanitizeSettings (some ⟨.strv false .nan, .undef, .strv false (.fin 0), .numv (.fin 100)⟩) false).pitchSemitones ∧
      (sanitizeSettings (some ⟨.strv false .nan, .undef, .strv false (.fin 0), .numv (.fin 100)⟩) false).pitchSemitones ≤ 12) ∧
    (false = false → (sanitizeSettings (some ⟨.strv false .nan, .undef, .strv false (.fin 0), .numv (.fin 100)⟩) false).nightMode = false ∧
      (sanitizeSettings (some ⟨.strv false .nan, .undef, .strv false (.fin 0), .numv (.fin 100)⟩) false).pitchSemitones = 0) ∧
    (sanitizeSettings none false = DEFAULTS) ∧
    (∀ obj : RawSettings, (some ⟨.strv false .nan, .undef, .strv false (.fin 0), .numv (.fin 100)⟩ : Option RawSettings) = some obj →
      ((toNumber (coalesce obj.volumeBoost (.numv (.fin 1)))).isFinite = false →
        (sanitizeSettings (some ⟨.strv false .nan, .undef, .strv false (.fin 0), .numv (.fin 100)⟩) false).volumeBoost = 1) ∧
      ((toNumber (coalesce obj.speed (.numv (.fin 1)))).isFinite = false →
        (sanitizeSettings (some ⟨.strv false .nan, .undef, .strv false (.fin 0), .numv (.fin 100)⟩) false).speed = 1/10) ∧
      (false = true → (toNumber (coalesce obj.pitchSemitones (.numv (.fin 0)))).isFinite = false →
        (sanitizeSettings (some ⟨.strv false .nan, .undef, .strv false (.fin 0), .numv (.fin 100)⟩) false).pitchSemitones = -12) ∧
      (obj.volumeBoost = .undef → (sanitizeSettings (some ⟨.strv false .nan, .undef, .strv false (.fin 0), .numv (.fin 100)⟩) false).volumeBoost = 1) ∧
      (obj.speed = .undef → (sanitizeSettings (some ⟨.strv false .nan, .undef, .strv false (.fin 0), .numv (.fin 100)⟩) false).speed = 1) ∧
      (obj.nightMode = .undef → (sanitizeSettings (some ⟨.strv false .nan, .undef, .strv false (.fin 0), .numv (.fin 100)⟩) false).nightMode = false) ∧
      (obj.pitchSemitones = .undef → (sanitizeSettings (some ⟨.strv false .nan, .undef, .strv false (.fin 0), .numv (.fin 100)⟩) false).pitchSemitones = 0)) :=
  C4_sanitize_clamps (some ⟨.strv false .nan, .undef, .strv false (.fin 0), .numv (.fin 100)⟩) false

/-- C5: both clamp functions are pure and idempotent —
`clamp(clamp(x, p), p) = clamp(x, p)` — so a settings record written to
the store and read back yields the same clamped values for an unchanged
plan tier; the popup-side and page-side clamp functions agree. -/
theorem C5_clamp_idempotent_roundtrip (raw : Option RawSettings) (pro : Bool) :
    sanitizeSettings (some (settingsToRaw (sanitizeSettings raw pro))) pro
      = sanitizeSettings raw pro ∧
    sanitizeSettingsForPlan (some (settingsToRaw (sanitizeSettingsForPlan raw pro))) pro
      = sanitizeSettingsForPlan raw pro ∧
    sanitizeSettingsForPlan raw pro = sanitizeSettings raw pro := by
  obtain ⟨b1, b2, b3, b4, b5, b6, b7⟩ := sanitizeSettings_bounds raw pro
  have hidem : sanitizeSettings (some (settingsToRaw (sanitizeSettings raw pro))) pro
      = sanitizeSettings raw pro :=
    sanitize_of_sanitized _ pro b1 b2 b3 b4 b5 b6 b7
  refine ⟨hidem, ?_, sanitizeSettingsForPlan_eq raw pro⟩
  rw [sanitizeSettingsForPlan_eq, sanitizeSettingsForPlan_eq]
  exact hidem

/-! ## Claim C2 -/

theorem jsMax_zero_of_nonpos (x : ℚ) (h : x ≤ 0) : jsMax 0 x = 0 := by
  simp only [jsMax]
  split_ifs with h0 <;> linarith

theorem isTrialActive_pos (t now : ℚ) (ht : t ≠ 0) :
    isTrialActive (some t) now = decide (now - t < TRIAL_DURATION_MS) := by
  simp only [isTrialActive, getTrialRemainingMs, if_neg ht, jsMax]
  split_ifs with h
  · exact decide_eq_decide.mpr (by constructor <;> intro <;> linarith)
  · exact decide_eq_decide.mpr (by constructor <;> intro <;> linarith)

/-- C2: for every stored entitlement state and every current time, the
resolved effective-Pro equals `licensed OR (trialStart present AND
now - trialStart < 15 minutes)`; with `trialStart = now - 1` ms
effective-Pro is true with `trialRemainingMs` of `15 min - 1 ms`; once
elapsed time reaches or exceeds 15 minutes the trial contributes nothing,
so effective-Pro is false unless `licensed` is true. -/
theorem C2_effective_pro (licensed : Bool) (t now : ℚ) (ht : 0 < t) :
    (getEffectiveIsPro licensed (some t) now
      = (licensed || decide (now - t < TRIAL_DURATION_MS))) ∧
    (getEffectiveIsPro licensed none now = licensed) ∧
    (0 < now - 1 →
      getEffectiveIsPro licensed (some (now - 1)) now = true ∧
      getTrialRemainingMs (some (now - 1)) now = TRIAL_DURATION_MS - 1) ∧
    (TRIAL_DURATION_MS ≤ now - t → getEffectiveIsPro licensed (some t) now = licensed) := by
  have hmain : getEffectiveIsPro licensed (some t) now
      = (licensed || decide (now - t < TRIAL_DURATION_MS)) := by
    rw [getEffectiveIsPro, isTrialActive_pos t now (ne_of_gt ht)]
  refine ⟨hmain, ?_, ?_, ?_⟩
  · simp [getEffectiveIsPro, isTrialActive, getTrialRemainingMs]
  · intro hnow
    have hne : now - 1 ≠ 0 := ne_of_gt hnow
    constructor
    · rw [getEffectiveIsPro, isTrialActive_pos (now - 1) now hne]
      have h2 : now - (now - 1) = 1 := by ring
      have h1 : (1 : ℚ) < TRIAL_DURATION_MS := by rw [TRIAL_DURATION_MS]; norm_num
      rw [h2]
      simp [h1]
    · rw [getTrialRemainingMs]
      rw [if_neg hne]
      have h1 : TRIAL_DURATION_MS - (now - (now - 1)) = TRIAL_DURATION_MS - 1 := by ring
      rw [h1]
      simp only [jsMax]
      rw [if_pos (by rw [TRIAL_DURATION_MS]; norm_num)]
  · intro hexp
    rw [hmain]
    have : ¬ (now - t < TRIAL_DURATION_MS) := not_lt.mpr hexp
    simp [this]

/-- Witness for C2 at `licensed = false`, `t = 1`, `now = 2`. -/
theorem C2_witness :
    (0 < (1 : ℚ)) ∧
    ((getEffectiveIsPro false (some 1) 2
      = (false || decide ((2 : ℚ) - 1 < TRIAL_DURATION_MS))) ∧
    (getEffectiveIsPro false none 2 = false) ∧
    (0 < (2 : ℚ) - 1 →
      getEffectiveIsPro false (some ((2 : ℚ) - 1)) 2 = true ∧
      getTrialRemainingMs (some ((2 : ℚ) - 1)) 2 = TRIAL_DURATION_MS - 1) ∧
    (TRIAL_DURATION_MS ≤ (2 : ℚ) - 1 → getEffectiveIsPro false (some 1) 2 = false)) :=
  ⟨by norm_num, C2_effective_pro false 1 2 (by norm_num)⟩

/-! ## Claim C3 -/

theorem loadTrialStartTime_pos (v : JsVal) (t : ℚ) (h : loadTrialStartTime v = some t) :
    0 < t := by
  cases v with
  | numv n =>
    cases n with
    | fin q =>
      simp only [loadTrialStartTime] at h
      by_cases hq : 0 < q
      · rw [if_pos hq] at h
        obtain rfl : q = t := Option.some.inj h
        exact hq
      · rw [if_neg hq] at h
        simp at h
    | nan => simp [loadTrialStartTime] at h
    | posInf => simp [loadTrialStartTime] at h
    | negInf => simp [loadTrialStartTime] at h
  | undef => simp [loadTrialStartTime] at h
  | nullv => simp [loadTrialStartTime] at h
  | boolv b => simp [loadTrialStartTime] at h
  | strv e n => simp [loadTrialStartTime] at h
  | objv n => simp [loadTrialStartTime] at h

theorem getTrialRemainingMs_expired (t now : ℚ) (ht : 0 < t)
    (hexp : TRIAL_DURATION_MS ≤ now - t) :
    getTrialRemainingMs (some t) now = 0 := by
  rw [getTrialRemainingMs, if_neg (ne_of_gt ht)]
  exact jsMax_zero_of_nonpos _ (by linarith)

/-- The concrete store for the C3 analysis: unlicensed, a trial recorded
as started at time 1. -/
def c3Store : StorageLocal := { isPro := .boolv false, trialStartTime := .numv (.fin 1) }

/-- C3 counterexample: at `now = TRIAL_DURATION_MS + 1` the trial started
at time 1 has exactly expired (`trialRemainingMs = 0`), yet
`refreshEffectivePro` returns the persisted store unchanged — the stored
`trialStartTime` is still `1`, so no persisted-store clear (and no event
emission) happens, contrary to the claim. -/
theorem C3_counterexample :
    getTrialRemainingMs (some 1) (TRIAL_DURATION_MS + 1) = 0 ∧
    (refreshEffectivePro c3Store (TRIAL_DURATION_MS + 1)).2 = c3Store ∧
    (refreshEffectivePro c3Store (TRIAL_DURATION_MS + 1)).2.trialStartTime = .numv (.fin 1) := by
  refine ⟨?_, rfl, rfl⟩
  exact getTrialRemainingMs_expired 1 _ (by norm_num) (by rw [TRIAL_DURATION_MS]; norm_num)

/-- C3 (amended): whenever a trial's elapsed time is at least the
15-minute duration, `refreshEffectivePro` treats the trial as consumed in
memory only: it clears the in-memory `currentTrialStartTime`, reports
`trialRemainingMs = 0`, and resolves `currentIsPro` to the stored license
flag alone; the persisted store is returned unchanged (no write side
effect, and no event is signalled), and at every later time the expired
trial still contributes nothing, so it is never restarted implicitly. -/
theorem C3_expiry_in_memory_only (stored : StorageLocal) (now t : ℚ)
    (ht : loadTrialStartTime stored.trialStartTime = some t)
    (hexp : TRIAL_DURATION_MS ≤ now - t) :
    (refreshEffectivePro stored now).2 = stored ∧
    (refreshEffectivePro stored now).1.currentTrialStartTime = none ∧
    (refreshEffectivePro stored now).1.currentIsPro
      = toBoolean (coalesce stored.isPro (.boolv false)) ∧
    getTrialRemainingMs (some t) now = 0 ∧
    (∀ now2 : ℚ, now ≤ now2 →
      (refreshEffectivePro stored now2).1.currentTrialStartTime = none ∧
      (refreshEffectivePro stored now2).1.currentIsPro
        = toBoolean (coalesce stored.isPro (.boolv false))) := by
  have htpos : 0 < t := loadTrialStartTime_pos _ _ ht
  have hstep : ∀ now2 : ℚ, now ≤ now2 →
      (refreshEffectivePro stored now2).1.currentTrialStartTime = none ∧
      (refreshEffectivePro stored now2).1.currentIsPro
        = toBoolean (coalesce stored.isPro (.boolv false)) := by
    intro now2 hle
    have hrem : getTrialRemainingMs (some t) now2 = 0 :=
      getTrialRemainingMs_expired t now2 htpos (by linarith)
    have hact : isTrialActive (some t) now2 = false := by
      simp [isTrialActive, hrem]
    constructor
    · simp only [refreshEffectivePro, ht, hact]
      rfl
    · simp only [refreshEffectivePro, ht, hact]
      simp [isTrialActive, getTrialRemainingMs]
  refine ⟨rfl, (hstep now le_rfl).1, (hstep now le_rfl).2,
    getTrialRemainingMs_expired t now htpos hexp, hstep⟩

/-- Witness for C3 (amended) on `c3Store` at `now = TRIAL_DURATION_MS + 1`. -/
theorem C3_witness :
    (loadTrialStartTime c3Store.trialStartTime = some 1) ∧
    (TRIAL_DURATION_MS ≤ TRIAL_DURATION_MS + 1 - 1) ∧
    ((refreshEffectivePro c3Store (TRIAL_DURATION_MS + 1)).1.currentTrialStartTime = none ∧
      (refreshEffectivePro c3Store (TRIAL_DURATION_MS + 1)).1.currentIsPro
        = toBoolean (coalesce c3Store.isPro (.boolv false))) := by
  have h1 : loadTrialStartTime c3Store.trialStartTime = some 1 := by
    simp [c3Store, loadTrialStartTime]
  have h2 : TRIAL_DURATION_MS ≤ TRIAL_DURATION_MS + 1 - 1 := by norm_num
  have h := C3_expiry_in_memory_only c3Store (TRIAL_DURATION_MS + 1) 1 h1 h2
  exact ⟨h1, h2, h.2.1, h.2.2.1⟩

/-! ## Claim C10 -/

/-- C10 counterexample: the key `"---"` sanitizes to the empty string, so
the activate handler rejects it for format and returns before any write:
a previously licensed state (`isPro = true`) survives an invalid
activation attempt, contradicting the claimed unconditional persist. -/
theorem C10_counterexample :
    sanitizeLicenseKeyInput "---" ≠ LICENSE_ACCEPTED_SANITIZED ∧
    (activateClick "---" true).isProStored = true ∧
    (activateClick "---" true).wrote = false := by
  refine ⟨?_, ?_, ?_⟩ <;> with_unfolding_all decide

/-- C10 (amended): license activation accepts a key if and only if, after
stripping every non-alphanumeric character and uppercasing, it equals
`"OFFLINEBETA2026"`; whenever the sanitized key passes the non-empty
format check the handler persists the comparison result (so a non-empty
invalid key submitted while licensed revokes the license, writing
`isPro = false`), but a key that sanitizes to the empty string fails the
format check and is rejected with no write at all, leaving any prior
licensed state in place. -/
theorem C10_activation (raw : String) (storedIsPro : Bool) :
    ((activateClick raw storedIsPro).accepted = true ↔
      sanitizeLicenseKeyInput raw = LICENSE_ACCEPTED_SANITIZED) ∧
    (isLicenseKeyValidFormat (sanitizeLicenseKeyInput raw) = true →
      (activateClick raw storedIsPro).wrote = true ∧
      (activateClick raw storedIsPro).isProStored
        = decide (sanitizeLicenseKeyInput raw = LICENSE_ACCEPTED_SANITIZED)) ∧
    (isLicenseKeyValidFormat (sanitizeLicenseKeyInput raw) = false →
      activateClick raw storedIsPro
        = { isProStored := storedIsPro, accepted := false, wrote := false }) := by
  have hconst : isLicenseKeyValidFormat LICENSE_ACCEPTED_SANITIZED = true := by
    with_unfolding_all decide
  by_cases hf : isLicenseKeyValidFormat (sanitizeLicenseKeyInput raw) = true
  · refine ⟨?_, fun _ => ?_, fun hc => by rw [hf] at hc; exact absurd hc (by simp)⟩
    · simp only [activateClick, hf, Bool.not_true, Bool.false_eq_true, if_false]
      exact decide_eq_true_iff
    · simp [activateClick, hf]
  · have hf' : isLicenseKeyValidFormat (sanitizeLicenseKeyInput raw) = false :=
      Bool.eq_false_iff.mpr hf
    have hne : sanitizeLicenseKeyInput raw ≠ LICENSE_ACCEPTED_SANITIZED := by
      intro he
      rw [he, hconst] at hf'
      exact absurd hf' (by simp)
    refine ⟨?_, fun hc => absurd hc hf, fun _ => ?_⟩
    · simp only [activateClick, hf', Bool.not_false, if_true]
      simp [hne]
    · simp only [activateClick, hf', Bool.not_false, if_true]

/-- Witness for C10 (amended): the key `"offline-beta-2026"` sanitizes to
the accepted constant, passes the format check, and is persisted. -/
theorem C10_witness :
    (isLicenseKeyValidFormat (sanitizeLicenseKeyInput "offline-beta-2026") = true) ∧
    (activateClick "offline-beta-2026" false).wrote = true ∧
    (activateClick "offline-beta-2026" false).isProStored
      = decide (sanitizeLicenseKeyInput "offline-beta-2026" = LICENSE_ACCEPTED_SANITIZED) := by
  have hf : isLicenseKeyValidFormat (sanitizeLicenseKeyInput "offline-beta-2026") = true := by
    with_unfolding_all decide
  have h := (C10_activation "offline-beta-2026" false).2.1 hf
  exact ⟨hf, h.1, h.2⟩

/-! ## Claim C6 -/

/-- A concrete media element for witnesses. -/
noncomputable def someVideo : Video :=
  { paused := false, ended := false, freq := List.replicate 128 0
    playbackRate := 1, preservesPitch := true }

/-- C6: for every speed and every semitone value in the data model's range
`[-12, 12]`: if `semitones = 0` the speed/pitch derivation yields
`preservePitch = true` and `playbackRate = speed`; otherwise it yields
`preservePitch = false` and `playbackRate = speed * 2 ^ (semitones / 12)`.
In particular `derive(2, 0) = (2, true)`, `derive(1, 12) = (2, false)` and
`derive(1, -12) = (1/2, false)`. -/
theorem C6_speed_pitch (video : Video) (speed semis : ℚ)
    (h1 : -12 ≤ semis) (h2 : semis ≤ 12) :
    (semis = 0 →
      (applySpeedAndPitchToVideo video speed (.fin semis)).preservesPitch = true ∧
      (applySpeedAndPitchToVideo video speed (.fin semis)).playbackRate = (speed : ℝ)) ∧
    (semis ≠ 0 →
      (applySpeedAndPitchToVideo video speed (.fin semis)).preservesPitch = false ∧
      (applySpeedAndPitchToVideo video speed (.fin semis)).playbackRate
        = (speed : ℝ) * (2 : ℝ) ^ ((semis : ℝ) / 12)) ∧
    ((applySpeedAndPitchToVideo video 2 (.fin 0)).playbackRate = 2 ∧
      (applySpeedAndPitchToVideo video 2 (.fin 0)).preservesPitch = true) ∧
    ((applySpeedAndPitchToVideo video 1 (.fin 12)).playbackRate = 2 ∧
      (applySpeedAndPitchToVideo video 1 (.fin 12)).preservesPitch = false) ∧
    ((applySpeedAndPitchToVideo video 1 (.fin (-12))).playbackRate = 1/2 ∧
      (applySpeedAndPitchToVideo video 1 (.fin (-12))).preservesPitch = false) := by
  have hcl : clampNumber (.fin semis) (-12) 12 = semis := clampNumber_fixed _ _ _ h1 h2
  have hcl0 : clampNumber (.fin 0) (-12) 12 = 0 := clampNumber_fixed _ _ _ (by norm_num) (by norm_num)
  have hcl12 : clampNumber (.fin 12) (-12) 12 = 12 := clampNumber_fixed _ _ _ (by norm_num) (by norm_num)
  have hclm12 : clampNumber (.fin (-12)) (-12) 12 = -12 :=
    clampNumber_fixed _ _ _ (by norm_num) (by norm_num)
  refine ⟨?_, ?_, ?_, ?_, ?_⟩
  · intro h0
    simp [applySpeedAndPitchToVideo, h0, hcl0]
  · intro h0
    simp [applySpeedAndPitchToVideo, hcl, h0]
  · constructor
    · simp [applySpeedAndPitchToVideo, hcl0]
    · simp [applySpeedAndPitchToVideo, hcl0]
  · have h12 : (12 : ℚ) ≠ 0 := by norm_num
    have hr : ((12 : ℚ) : ℝ) / 12 = 1 := by push_cast; norm_num
    constructor
    · simp only [applySpeedAndPitchToVideo, hcl12, if_neg h12]
      rw [hr, Real.rpow_one]
      norm_num
    · simp [applySpeedAndPitchToVideo, hcl12, h12]
  · have hm12 : (-12 : ℚ) ≠ 0 := by norm_num
    have hr : ((-12 : ℚ) : ℝ) / 12 = ((-1 : ℤ) : ℝ) := by push_cast; norm_num
    constructor
    · simp only [applySpeedAndPitchToVideo, hclm12, if_neg hm12]
      rw [hr, Real.rpow_intCast]
      norm_num
    · simp [applySpeedAndPitchToVideo, hclm12, hm12]

/-- Witness for C6 at `speed = 3`, `semis = 12` on a concrete element. -/
theorem C6_witness :
    (-12 ≤ (12 : ℚ)) ∧ ((12 : ℚ) ≤ 12) ∧
    ((12 : ℚ) ≠ 0 →
      (applySpeedAndPitchToVideo someVideo 3 (.fin 12)).preservesPitch = false ∧
      (applySpeedAndPitchToVideo someVideo 3 (.fin 12)).playbackRate
        = ((3 : ℚ) : ℝ) * (2 : ℝ) ^ (((12 : ℚ) : ℝ) / 12)) :=
  ⟨by norm_num, by norm_num, (C6_speed_pitch someVideo 3 12 (by norm_num) (by norm_num)).2.1⟩

/-! ## Claims C1 and C8: pipeline lifecycle -/

theorem ensurePipeline_existing (st : AudioEngine) (v : ℕ) (ca so : Bool) (p : Pipe)
    (hb : st.blocked v = false) (hp : st.pipelines v = some p) :
    ensurePipelineForVideo st v ca so = (some p, st) := by
  simp [ensurePipelineForVideo, hb, hp]

theorem ensurePipeline_fresh_succeeds (st : AudioEngine) (v : ℕ)
    (hb : st.blocked v = false) (hp : st.pipelines v = none) :
    (ensurePipelineForVideo st v true true).1 = some initialPipe ∧
    (ensurePipelineForVideo st v true true).2.pipelines v = some initialPipe ∧
    (ensurePipelineForVideo st v true true).2.srcCount v = st.srcCount v + 1 ∧
    (ensurePipelineForVideo st v true true).2.blocked v = false := by
  by_cases hctx : st.ctx = true <;>
    simp [ensurePipelineForVideo, hb, hp, ensureAudioContext, hctx]

theorem applyAudio_wet_fresh (st : AudioEngine) (v : ℕ) (s : Settings)
    (hcond : s.volumeBoost > 1 ∨ s.nightMode = true)
    (hb : st.blocked v = false) (hp : st.pipelines v = none) :
    ((applyAudioToVideo st v s true true).pipelines v).isSome = true ∧
    (applyAudioToVideo st v s true true).srcCount v = st.srcCount v + 1 ∧
    (applyAudioToVideo st v s true true).blocked v = false := by
  obtain ⟨h1, h2, h3, h4⟩ := ensurePipeline_fresh_succeeds st v hb hp
  rcases hE : ensurePipelineForVideo st v true true with ⟨r, st1⟩
  rw [hE] at h1 h2 h3 h4
  simp only at h1 h2 h3 h4
  subst h1
  simp only [applyAudioToVideo, if_pos hcond, hE]
  simp [h3, h4]

theorem applyAudio_wet_existing (st : AudioEngine) (v : ℕ) (s : Settings)
    (hcond : s.volumeBoost > 1 ∨ s.nightMode = true)
    (hb : st.blocked v = false) (p : Pipe) (hp : st.pipelines v = some p) :
    ((applyAudioToVideo st v s true true).pipelines v).isSome = true ∧
    (applyAudioToVideo st v s true true).srcCount v = st.srcCount v ∧
    (applyAudioToVideo st v s true true).blocked v = false := by
  have hE := ensurePipeline_existing st v true true p hb hp
  simp only [applyAudioToVideo, if_pos hcond, hE]
  simp [hb]

/-- C1: for every media element, at most one pipeline ever exists:
applying settings with `volumeBoost ≤ 1` and `nightMode = false` to an
element with no pipeline constructs no pipeline (zero-overhead
passthrough), while applying settings with `volumeBoost > 1` or
`nightMode = true` constructs exactly one pipeline (one media-element
source node) for that element — even if apply is called twice in a row —
and every later apply or attachment attempt returns the existing pipeline
rather than creating a second source node. -/
theorem C1_single_pipeline (st : AudioEngine) (v : ℕ) (s : Settings) (ca so : Bool)
    (hnone : st.pipelines v = none) :
    (s.volumeBoost ≤ 1 ∧ s.nightMode = false →
      (applyAudioToVideo st v s ca so).pipelines v = none ∧
      (applyAudioToVideo st v s ca so).srcCount v = st.srcCount v) ∧
    (s.volumeBoost > 1 ∨ s.nightMode = true →
      st.blocked v = false → st.srcCount v = 0 →
      ((applyAudioToVideo st v s true true).pipelines v).isSome = true ∧
      (applyAudioToVideo st v s true true).srcCount v = 1 ∧
      ((applyAudioToVideo (applyAudioToVideo st v s true true) v s true true).pipelines
        v).isSome = true ∧
      (applyAudioToVideo (applyAudioToVideo st v s true true) v s true true).srcCount v = 1) ∧
    (∀ (st2 : AudioEngine) (p : Pipe) (ca2 so2 : Bool),
      st2.blocked v = false → st2.pipelines v = some p →
      ensurePipelineForVideo st2 v ca2 so2 = (some p, st2)) := by
  refine ⟨?_, ?_, fun st2 p ca2 so2 hb2 hp2 => ensurePipeline_existing st2 v ca2 so2 p hb2 hp2⟩
  · rintro ⟨hvb, hnm⟩
    have hcond : ¬(s.volumeBoost > 1 ∨ s.nightMode = true) := by
      rintro (h | h)
      · exact absurd h (not_lt.mpr hvb)
      · rw [hnm] at h; exact absurd h (by simp)
    simp [applyAudioToVideo, if_neg hcond, hnone]
  · intro hcond hb hsc
    obtain ⟨a1, a2, a3⟩ := applyAudio_wet_fresh st v s hcond hb hnone
    rw [hsc, Nat.zero_add] at a2
    obtain ⟨p1, hp1⟩ := Option.isSome_iff_exists.mp a1
    obtain ⟨b1, b2, b3⟩ :=
      applyAudio_wet_existing (applyAudioToVideo st v s true true) v s hcond a3 p1 hp1
    exact ⟨a1, a2, b1, by rw [b2, a2]⟩

/-- The wet settings used by the C1 witness (`volumeBoost = 2`). -/
def wetSettings : Settings := ⟨2, 1, false, 0⟩

/-- Witness for C1 on a fresh engine and element `0` with
`volumeBoost = 2`. -/
theorem C1_witness :
    (emptyEngine.pipelines 0 = none) ∧
    (wetSettings.volumeBoost > 1 ∨ wetSettings.nightMode = true) ∧
    (emptyEngine.blocked 0 = false) ∧ (emptyEngine.srcCount 0 = 0) ∧
    (((applyAudioToVideo emptyEngine 0 wetSettings true true).pipelines 0).isSome = true ∧
      (applyAudioToVideo emptyEngine 0 wetSettings true true).srcCount 0 = 1 ∧
      ((applyAudioToVideo (applyAudioToVideo emptyEngine 0 wetSettings true true) 0 wetSettings
        true true).pipelines 0).isSome = true ∧
      (applyAudioToVideo (applyAudioToVideo emptyEngine 0 wetSettings true true) 0 wetSettings
        true true).srcCount 0 = 1) := by
  have hc : wetSettings.volumeBoost > 1 ∨ wetSettings.nightMode = true :=
    Or.inl (by norm_num [wetSettings])
  exact ⟨rfl, hc, rfl, rfl,
    (C1_single_pipeline emptyEngine 0 wetSettings true true rfl).2.1 hc rfl rfl⟩

/-- C8: any pipeline-construction error for a given media element is
terminal for that element: the element is recorded as blocked, every
subsequent attachment or apply attempt for it skips construction (the
whole engine state, including the source-node count, is left untouched)
and returns no pipeline, and native playback continues unmodified
(fail-open). -/
theorem C8_blocked_terminal (st : AudioEngine) (v : ℕ) (ca so : Bool) (s : Settings) :
    (st.blocked v = true →
      ensurePipelineForVideo st v ca so = (none, st)) ∧
    (st.blocked v = true → st.pipelines v = none →
      applyAudioToVideo st v s ca so = st) ∧
    (st.blocked v = false → st.pipelines v = none → st.ctx = true →
      (ensurePipelineForVideo st v ca false).1 = none ∧
      (ensurePipelineForVideo st v ca false).2.blocked v = true ∧
      (ensurePipelineForVideo st v ca false).2.srcCount v = st.srcCount v ∧
      (ensurePipelineForVideo st v ca false).2.pipelines v = none) := by
  refine ⟨?_, ?_, ?_⟩
  · intro hb
    simp [ensurePipelineForVideo, hb]
  · intro hb hp
    by_cases hcond : s.volumeBoost > 1 ∨ s.nightMode = true <;>
      simp [applyAudioToVideo, hcond, ensurePipelineForVideo, hb, hp]
  · intro hb hp hctx
    simp [ensurePipelineForVideo, hb, hp, ensureAudioContext, hctx]

/-- A concrete engine whose element `0` is blocked. -/
def blockedEngine : AudioEngine :=
  { ctx := true, pipelines := fun _ => none, blocked := fun w => w == 0, srcCount := fun _ => 0 }

/-- Witness for C8 on `blockedEngine` at element `0`. -/
theorem C8_witness :
    (blockedEngine.blocked 0 = true) ∧
    (blockedEngine.pipelines 0 = none) ∧
    (ensurePipelineForVideo blockedEngine 0 true true = (none, blockedEngine) ∧
      applyAudioToVideo blockedEngine 0 wetSettings true true = blockedEngine) := by
  have h := C8_blocked_terminal blockedEngine 0 true true wetSettings
  exact ⟨rfl, rfl, h.1 rfl, h.2.1 rfl rfl⟩

/-! ## Claim C7: spectrum sampling -/

theorem computeVizLevels_length (freq : List ℕ) (barCount : ℕ) :
    (computeVizLevels freq barCount).length = max 8 (min 64 barCount) := by
  simp [computeVizLevels]

theorem computeVizLevels_bounds (freq : List ℕ) (barCount : ℕ) :
    ∀ x ∈ computeVizLevels freq barCount, 0 ≤ x ∧ x ≤ 1 := by
  intro x hx
  simp only [computeVizLevels, List.mem_map] at hx
  obtain ⟨i, _, hx⟩ := hx
  rw [← hx]
  exact clampNumber_bounds _ 0 1 (by norm_num)

theorem getD_zero_of_all_zero (l : List ℕ) (k : ℕ) (hz : ∀ x ∈ l, x = 0) :
    l.getD k 0 = 0 := by
  rcases h : l[k]? with _ | x
  · simp [List.getD_eq_getElem?_getD, h]
  · have hx : x ∈ l := by
      obtain ⟨hk, rfl⟩ := List.getElem?_eq_some_iff.mp h
      exact List.getElem_mem hk
    simp [List.getD_eq_getElem?_getD, h, hz x hx]

theorem vizBucket_zero (freq : List ℕ) (step i : ℕ) (hz : ∀ x ∈ freq, x = 0) :
    vizBucket freq step i = 0 := by
  unfold vizBucket
  have hd : ∀ k : ℕ, freq.getD k 0 = 0 := fun k => getD_zero_of_all_zero freq k hz
  simp only [hd]
  split <;> simp

theorem computeVizLevels_all_zero (freq : List ℕ) (barCount : ℕ) (hz : ∀ x ∈ freq, x = 0) :
    computeVizLevels freq barCount = List.replicate (max 8 (min 64 barCount)) 0 := by
  rw [List.eq_replicate_iff]
  refine ⟨computeVizLevels_length _ _, ?_⟩
  intro b hb
  simp only [computeVizLevels, List.mem_map] at hb
  obtain ⟨i, _, hb⟩ := hb
  rw [← hb, vizBucket_zero freq _ i hz]
  norm_num [clampNumber, jsMin, jsMax]

/-- The concrete paused element for the C7 counterexample: no playback,
silent analyser data, and no pipeline in the engine. -/
noncomputable def c7Video : Video :=
  { paused := true, ended := false, freq := List.replicate 128 0
    playbackRate := 1, preservesPitch := true }

/-- The page state of the C7 counterexample: entitled, a single paused
video with no pipeline and a constructible audio graph. -/
noncomputable def c7State : PageState :=
  { engine := emptyEngine, currentIsPro := true, currentSettings := DEFAULTS
    videos := [c7Video] }

/-- C7 counterexample: the chosen element has no pipeline and no playback,
yet the spectrum endpoint does not return `levels = []` — it lazily
constructs a pipeline and returns 24 levels (all zero here), so the reply
is `\x7bok:true, active:false, levels:[0, ...]\x7d` rather than the
claimed `\x7bactive:false, levels:[]\x7d`. -/
theorem C7_counterexample :
    (c7State.engine.pipelines 0 = none) ∧
    (c7Video.paused = true) ∧
    ((handleMessage c7State .getViz false true true).1
      = .vizFrame false (List.replicate 24 0)) ∧
    (handleMessage c7State .getViz false true true).1 ≠ .vizFrame false [] := by
  have hz : ∀ x ∈ c7Video.freq, x = 0 := by
    intro x hx
    exact List.eq_of_mem_replicate hx
  have hlv : computeVizLevels c7Video.freq 24 = List.replicate 24 0 := by
    have := computeVizLevels_all_zero c7Video.freq 24 hz
    simpa [c7Video] using this
  have hmain : (handleMessage c7State .getViz false true true).1
      = .vizFrame false (computeVizLevels c7Video.freq 24) := by
    have hpro : c7State.currentIsPro = true := rfl
    have hget : c7State.videos.get? 0 = some c7Video := rfl
    have hgp : getPrimaryPipeline c7State = some (0, none) := rfl
    have hE1 : (ensurePipelineForVideo c7State.engine 0 true true).1 = some initialPipe := rfl
    rcases hE : ensurePipelineForVideo c7State.engine 0 true true with ⟨r, eng1⟩
    rw [hE] at hE1
    simp only at hE1
    subst hE1
    simp only [handleMessage, hpro, hgp, hget, hE]
    simp [c7Video]
  rw [hmain, hlv]
  refine ⟨rfl, rfl, rfl, ?_⟩
  intro h
  have := (Response.vizFrame.injEq _ _ _ _).mp h
  simp at this

/-- C7 (amended): spectrum sampling returns `\x7bactive:false,
levels:[]\x7d` when no media element is discovered, and when the chosen
element has no pipeline and pipeline construction yields none (for
example, a blocked element); when the element lacks a pipeline the handler
lazily constructs one, and on an element with a pipeline and active
playback it returns exactly 24 levels, each in `[0, 1]`, obtained by
downsampling frequency-domain magnitudes into contiguous averaged buckets
normalized to `[0, 1]`. -/
theorem C7_spectrum (st : PageState) (ca so : Bool) :
    (st.videos = [] → st.currentIsPro = true →
      (handleMessage st .getViz false ca so).1 = .vizFrame false []) ∧
    (∀ i, st.currentIsPro = true → getPrimaryPipeline st = some (i, none) →
      st.engine.blocked i = true →
      (handleMessage st .getViz false ca so).1 = .vizFrame false []) ∧
    (∀ i v p, st.currentIsPro = true → findPlayingIdx st.videos = some i →
      st.videos.get? i = some v → st.engine.pipelines i = some p →
      (handleMessage st .getViz false ca so).1
        = .vizFrame true (computeVizLevels v.freq 24) ∧
      (computeVizLevels v.freq 24).length = 24 ∧
      (∀ x ∈ computeVizLevels v.freq 24, 0 ≤ x ∧ x ≤ 1)) := by
  refine ⟨?_, ?_, ?_⟩
  · intro hnil hpro
    have hgp : getPrimaryPipeline st = none := by
      simp [getPrimaryPipeline, findPlayingIdx, hnil]
    simp [handleMessage, hpro, hgp]
  · intro i hpro hgp hb
    have hE : ensurePipelineForVideo st.engine i ca so = (none, st.engine) := by
      simp [ensurePipelineForVideo, hb]
    simp [handleMessage, hpro, hgp, hE]
  · intro i v p hpro hfind hget hpip
    have hplay : (!v.paused && !v.ended) = true := by
      have hpred := List.find?_some hfind
      rw [hget] at hpred
      simpa using hpred
    have hgp : getPrimaryPipeline st = some (i, some p) := by
      simp [getPrimaryPipeline, hfind, hpip]
    have hget2 : st.videos[i]? = some v := by
      rw [← List.get?_eq_getElem?]; exact hget
    refine ⟨?_, ?_, computeVizLevels_bounds _ _⟩
    · simp [handleMessage, hpro, hgp, hget2, hplay]
    · rw [computeVizLevels_length]
      norm_num

/-- The concrete playing element for the C7 witness. -/
noncomputable def c7bVideo : Video :=
  { paused := false, ended := false, freq := List.replicate 128 0
    playbackRate := 1, preservesPitch := true }

/-- The page state of the C7 witness: entitled, one playing video whose
pipeline already exists. -/
noncomputable def c7bState : PageState :=
  { engine := { ctx := true, pipelines := fun _ => some initialPipe
                blocked := fun _ => false, srcCount := fun _ => 1 }
    currentIsPro := true, currentSettings := DEFAULTS, videos := [c7bVideo] }

/-- Witness for C7 (amended) on a playing element with a pipeline. -/
theorem C7_witness :
    (c7bState.currentIsPro = true) ∧
    (findPlayingIdx c7bState.videos = some 0) ∧
    (c7bState.videos.get? 0 = some c7bVideo) ∧
    (c7bState.engine.pipelines 0 = some initialPipe) ∧
    ((handleMessage c7bState .getViz false true true).1
        = .vizFrame true (computeVizLevels c7bVideo.freq 24) ∧
      (computeVizLevels c7bVideo.freq 24).length = 24 ∧
      (∀ x ∈ computeVizLevels c7bVideo.freq 24, 0 ≤ x ∧ x ≤ 1)) := by
  have hfind : findPlayingIdx c7bState.videos = some 0 := rfl
  exact ⟨rfl, hfind, rfl, rfl,
    (C7_spectrum c7bState true true).2.2 0 c7bVideo initialPipe rfl hfind rfl rfl⟩

/-! ## Claim C9: endpoint failure handling -/

/-- The page state of the C9 analysis: entitled, no videos. -/
def c9State : PageState :=
  { engine := emptyEngine, currentIsPro := true, currentSettings := DEFAULTS, videos := [] }

/-- C9 counterexample: on an internal failure the get-spectrum-frame
handler's `catch` returns `\x7bok:true, active:false, levels:[]\x7d` — an
`ok:true`-shaped response — and the liveness handler's `catch` returns
`\x7bhasVideo:false\x7d`, which carries no `ok` property at all; so it is
not the case that every endpoint converts internal failures into an
`\x7bok:false\x7d`-shaped response. -/
theorem C9_counterexample :
    ((handleMessage c9State .getViz true true true).1.okField = some true) ∧
    ((handleMessage c9State .ping true true true).1.okField = none) :=
  ⟨rfl, rfl⟩

/-- C9 (amended): every request/response endpoint handler catches every
internal failure and returns a structured response instead of letting the
fault propagate — apply-settings and resume-audio return `\x7bok:false\x7d`,
the liveness check returns `\x7bhasVideo:false\x7d`, and get-spectrum-frame
returns `\x7bok:true, active:false, levels:[]\x7d`; additionally, absent an
internal failure, get-spectrum-frame returns `\x7bok:false\x7d` whenever
the context is not entitled and an `ok:true` response carrying `active`
and `levels` otherwise. -/
theorem C9_endpoint_failures (st : PageState) (raw : Option RawSettings) (ca so : Bool) :
    (handleMessage st .ping true ca so = (.pingResp false, st)) ∧
    (handleMessage st (.applyMsg raw) true ca so = (.okResp false, st)) ∧
    (handleMessage st .getViz true ca so = (.vizFrame false [], st)) ∧
    (handleMessage st .resumeCtx true ca so = (.okResp false, st)) ∧
    (st.currentIsPro = false → (handleMessage st .getViz false ca so).1 = .vizDenied) ∧
    (st.currentIsPro = true →
      (handleMessage st .getViz false ca so).1.okField = some true) := by
  refine ⟨rfl, rfl, rfl, rfl, ?_, ?_⟩
  · intro hpro
    simp [handleMessage, hpro]
  · intro hpro
    rcases hgp : getPrimaryPipeline st with _ | ⟨i, pipeOpt⟩
    · simp [handleMessage, hpro, hgp, Response.okField]
    · rcases pipeOpt with _ | p
      · rcases hE : ensurePipelineForVideo st.engine i ca so with ⟨r, eng1⟩
        rcases r with _ | p2
        · simp [handleMessage, hpro, hgp, hE, Response.okField]
        · simp [handleMessage, hpro, hgp, hE, Response.okField]
      · simp [handleMessage, hpro, hgp, Response.okField]

/-- Witness for C9 (amended) on the entitled no-video state. -/
theorem C9_witness :
    (c9State.currentIsPro = true) ∧
    ((handleMessage c9State .getViz false true true).1.okField = some true) :=
  ⟨rfl, (C9_endpoint_failures c9State none true true).2.2.2.2.2 rfl⟩

end SonicSpeed
